import Mathlib

/-!
Verification development for the travel-assistant chat frontend.

The embedded code comes from the repository's sources:
* the `useSSEChat` hook (`ChatMessage`, `AgentState`, `updateAgentStatus`,
  `resetAgents`, `parseFlightResults`, `parseHotelResults`,
  `cancelCurrentQuery`, `sendMessage` and its SSE event switch);
* the simulated multi-agent API route (`POST`: intent flags and the
  agents list of the response);
* a Worker interruption model taken from the specification, because the
  Python backend that implements the Worker loop is not part of the
  source tree (only its setup scripts are).

JavaScript dynamic values that flow through the parsers are modelled by a
small `Json` type; machine-level details that the claims do not touch
(UTF-16 representation, floating point rounding of exotic inputs) are
modelled with `Rat` arithmetic and unicode scalar characters.
-/

/-- A JSON / JavaScript dynamic value.  `Option Json` stands for a value
that may also be JavaScript `undefined` (`none`). -/
inductive Json where
  | null : Json
  | bool (b : Bool) : Json
  | num (v : Rat) : Json
  | str (s : String) : Json
  | arr (items : List Json) : Json
  | obj (fields : List (String × Json)) : Json

/-- JavaScript truthiness of a defined value: `null`, `false`, `0` and the
empty string are falsy, arrays and objects are truthy. -/
def Json.truthy : Json → Bool
  | Json.null => false
  | Json.bool b => b
  | Json.num v => decide (v ≠ 0)
  | Json.str s => decide (s ≠ "")
  | Json.arr _ => true
  | Json.obj _ => true

/-- Property read `j[k]` on a dynamic value: `none` models `undefined`.
On duplicate keys `JSON.parse` keeps the last one, so lookup scans from
the right. -/
def Json.get? : Json → String → Option Json
  | Json.obj fields, k =>
      (fields.reverse.find? (fun f => f.fst = k)).map Prod.snd
  | _, _ => none

/-- Optional-chaining read `j?.k` starting from a possibly-undefined value. -/
def jsGet (j : Option Json) (k : String) : Option Json :=
  match j with
  | some v => v.get? k
  | none => none

/-- JavaScript `a ?? b` (nullish coalescing) where `a` may be undefined. -/
def jsNullish (a : Option Json) (b : Option Json) : Option Json :=
  match a with
  | some Json.null => b
  | some v => some v
  | none => b

/-- JavaScript `a || b` (truthiness-based or) on possibly-undefined values. -/
def jsOr (a : Option Json) (b : Option Json) : Option Json :=
  match a with
  | some v => if v.truthy then some v else b
  | none => b

/-- JavaScript string interpolation of a dynamic value (the cases that can
reach a template literal in the embedded code). -/
def jsShow : Json → String
  | Json.null => "null"
  | Json.bool b => if b then "true" else "false"
  | Json.num v => if v.den = 1 then toString v.num else toString v
  | Json.str s => s
  | Json.arr _ => ""
  | Json.obj _ => "[object Object]"

/-- The `Math.round`: round half toward positive infinity. -/
def jsRound (q : Rat) : Int := ⌊q + 1 / 2⌋

/-- Decimal shift by a signed power of ten, used for number literals. -/
def pow10 (k : Int) : Rat :=
  if 0 ≤ k then ((10 : Rat) ^ k.toNat) else 1 / ((10 : Rat) ^ (-k).toNat)

/-- JSON whitespace skipping. -/
def skipWs : List Char → List Char
  | c :: cs => if c = ' ' ∨ c = '\t' ∨ c = '\n' ∨ c = '\r' then skipWs cs else c :: cs
  | [] => []

/-- Greedy run of decimal digits together with the remaining input. -/
def takeDigits : List Char → List Char × List Char
  | c :: cs =>
      if c.isDigit then
        let r := takeDigits cs
        (c :: r.fst, r.snd)
      else ([], c :: cs)
  | [] => ([], [])

/-- Numeric value of a digit run. -/
def digitsToNat (ds : List Char) : Nat :=
  ds.foldl (fun acc c => acc * 10 + (c.toNat - '0'.toNat)) 0

/-- Value of a hexadecimal digit, if any. -/
def hexVal (c : Char) : Option Nat :=
  if c.isDigit then some (c.toNat - '0'.toNat)
  else if 'a' ≤ c ∧ c ≤ 'f' then some (c.toNat - 'a'.toNat + 10)
  else if 'A' ≤ c ∧ c ≤ 'F' then some (c.toNat - 'A'.toNat + 10)
  else none

/-- Body of a JSON string literal (after the opening quote), with the
standard escapes. -/
def parseJStr : Nat → List Char → Option (String × List Char)
  | 0, _ => none
  | _, [] => none
  | fuel + 1, c :: cs =>
    if c = '"' then some ("", cs)
    else if c = '\\' then
      match cs with
      | [] => none
      | e :: cs' =>
        let cont := fun (ch : Char) (rest : List Char) =>
          (parseJStr fuel rest).map (fun r => (String.mk (ch :: r.fst.data), r.snd))
        if e = '"' then cont '"' cs'
        else if e = '\\' then cont '\\' cs'
        else if e = '/' then cont '/' cs'
        else if e = 'b' then cont (Char.ofNat 8) cs'
        else if e = 'f' then cont (Char.ofNat 12) cs'
        else if e = 'n' then cont '\n' cs'
        else if e = 'r' then cont '\r' cs'
        else if e = 't' then cont '\t' cs'
        else if e = 'u' then
          match cs' with
          | h1 :: h2 :: h3 :: h4 :: cs'' =>
            match hexVal h1, hexVal h2, hexVal h3, hexVal h4 with
            | some a, some b, some c3, some d =>
                cont (Char.ofNat (((a * 16 + b) * 16 + c3) * 16 + d)) cs''
            | _, _, _, _ => none
          | _ => none
        else none
    else (parseJStr fuel cs).map (fun r => (String.mk (c :: r.fst.data), r.snd))

/-- A JSON number literal: optional sign, integer part, optional fraction
and exponent. -/
def parseJNum (cs : List Char) : Option (Rat × List Char) :=
  let signed := fun (l : List Char) =>
    match l with
    | '-' :: rest => ((-1 : Int), rest)
    | rest => ((1 : Int), rest)
  let s := signed cs
  let intPart := takeDigits s.snd
  if intPart.fst = [] then none
  else
    let frac :=
      match intPart.snd with
      | '.' :: rest =>
          let f := takeDigits rest
          if f.fst = [] then none else some f
      | _ => some ([], intPart.snd)
    match frac with
    | none => none
    | some f =>
      let expPart :=
        match f.snd with
        | 'e' :: rest =>
            let es := signed rest
            let ed := takeDigits es.snd
            if ed.fst = [] then none else some (es.fst * (digitsToNat ed.fst : Int), ed.snd)
        | 'E' :: rest =>
            let es := signed rest
            let ed := takeDigits es.snd
            if ed.fst = [] then none else some (es.fst * (digitsToNat ed.fst : Int), ed.snd)
        | rest => some (0, rest)
      match expPart with
      | none => none
      | some ep =>
        let mantissa : Int :=
          s.fst * ((digitsToNat intPart.fst * 10 ^ f.fst.length + digitsToNat f.fst : Nat) : Int)
        some ((mantissa : Rat) * pow10 (ep.fst - (f.fst.length : Int)), ep.snd)

mutual

/-- Recursive-descent JSON value, fuelled to stay structural. -/
def parseJVal : Nat → List Char → Option (Json × List Char)
  | 0, _ => none
  | fuel + 1, cs =>
    match skipWs cs with
    | [] => none
    | c :: rest =>
      if c = '{' then
        match skipWs rest with
        | '}' :: rest' => some (Json.obj [], rest')
        | rest' => (parseJFields fuel rest').map (fun r => (Json.obj r.fst, r.snd))
      else if c = '[' then
        match skipWs rest with
        | ']' :: rest' => some (Json.arr [], rest')
        | rest' => (parseJItems fuel rest').map (fun r => (Json.arr r.fst, r.snd))
      else if c = '"' then
        (parseJStr fuel rest).map (fun r => (Json.str r.fst, r.snd))
      else if c = 't' then
        match rest with
        | 'r' :: 'u' :: 'e' :: rest' => some (Json.bool true, rest')
        | _ => none
      else if c = 'f' then
        match rest with
        | 'a' :: 'l' :: 's' :: 'e' :: rest' => some (Json.bool false, rest')
        | _ => none
      else if c = 'n' then
        match rest with
        | 'u' :: 'l' :: 'l' :: rest' => some (Json.null, rest')
        | _ => none
      else
        (parseJNum (c :: rest)).map (fun r => (Json.num r.fst, r.snd))

/-- Comma-separated array items after the opening bracket. -/
def parseJItems : Nat → List Char → Option (List Json × List Char)
  | 0, _ => none
  | fuel + 1, cs =>
    match parseJVal fuel cs with
    | none => none
    | some v =>
      match skipWs v.snd with
      | ',' :: rest => (parseJItems fuel rest).map (fun r => (v.fst :: r.fst, r.snd))
      | ']' :: rest => some ([v.fst], rest)
      | _ => none

/-- Comma-separated object fields after the opening brace. -/
def parseJFields : Nat → List Char → Option (List (String × Json) × List Char)
  | 0, _ => none
  | fuel + 1, cs =>
    match skipWs cs with
    | '"' :: rest =>
      match parseJStr fuel rest with
      | none => none
      | some k =>
        match skipWs k.snd with
        | ':' :: rest' =>
          match parseJVal fuel rest' with
          | none => none
          | some v =>
            match skipWs v.snd with
            | ',' :: rest'' =>
                (parseJFields fuel rest'').map (fun r => ((k.fst, v.fst) :: r.fst, r.snd))
            | '}' :: rest'' => some ([(k.fst, v.fst)], rest'')
            | _ => none
        | _ => none
    | _ => none

end

/-- The `JSON.parse`: `none` models a thrown `SyntaxError`. -/
def jsonParse (s : String) : Option Json :=
  match parseJVal (s.length + 1) s.data with
  | some r => if skipWs r.snd = [] then some r.fst else none
  | none => none

/-- JavaScript `\s` (the whitespace characters that occur in practice;
exotic unicode spaces are not modelled). -/
def jsIsWs (c : Char) : Bool :=
  c = ' ' ∨ c = '\t' ∨ c = '\n' ∨ c = '\r' ∨ c = '\x0b' ∨ c = '\x0c'

/-- Leading-whitespace removal. -/
def dropLeadWs : List Char → List Char
  | c :: cs => if jsIsWs c then dropLeadWs cs else c :: cs
  | [] => []

/-- The `String.prototype.trim`. -/
def jsTrimL (cs : List Char) : List Char :=
  (dropLeadWs (dropLeadWs cs).reverse).reverse

/-- The `String.prototype.trim` on `String`. -/
def jsTrimStr (s : String) : String := String.mk (jsTrimL s.data)

/-- Does `needle` occur at the head of `hay`? -/
def subAt : List Char → List Char → Bool
  | [], _ => true
  | _ :: _, [] => false
  | n :: ns, h :: hs => n = h && subAt ns hs

/-- The `String.prototype.indexOf` (first occurrence). -/
def subIdx (hay needle : List Char) : Option Nat :=
  (List.range (hay.length + 1)).find? (fun i => subAt needle (hay.drop i))

/-- The `String.prototype.lastIndexOf` (last occurrence). -/
def lastSubIdx (hay needle : List Char) : Option Nat :=
  ((List.range (hay.length + 1)).filter (fun i => subAt needle (hay.drop i))).getLast?

/-- The `String.prototype.includes`. -/
def containsSub (hay needle : List Char) : Bool := (subIdx hay needle).isSome

/-- The `String.prototype.includes` on `String`s. -/
def strIncludes (hay needle : String) : Bool := containsSub hay.data needle.data

/-- Index of the first occurrence of a character. -/
def charIdx (cs : List Char) (c : Char) : Option Nat :=
  cs.findIdx? (fun x => x = c)

/-- Index of the last occurrence of a character. -/
def lastCharIdx (cs : List Char) (c : Char) : Option Nat :=
  (charIdx cs.reverse c).map (fun k => cs.length - 1 - k)

/-- The match list of the global regex `/\x7b[\s\S]*\x7d/g` over a string.
The quantifier is greedy, so the single possible match runs from the first
opening brace to the last closing brace that follows it; after it no brace
pair remains, hence the list has at most one element. -/
def braceSpanMatches (cs : List Char) : List (List Char) :=
  match charIdx cs '\x7b', lastCharIdx cs '\x7d' with
  | some i, some j => if i < j then [(cs.drop i).take (j - i + 1)] else []
  | _, _ => []

/-- The `raw` JSON block selected by `parseFlightResults`: prefer the last
block starting with `{"items"` (cut at the last closing brace after a
trim), otherwise scan the brace-span matches from the end for one that
contains `"items"`, otherwise fall back to the last match outright. -/
def extractItemsRaw (content : String) : Option String :=
  let cs := content.data
  match lastSubIdx cs ("\x7b\"items\"".data) with
  | some idx =>
    let block := jsTrimL (cs.drop idx)
    match lastCharIdx block '\x7d' with
    | some lb => some (String.mk (block.take (lb + 1)))
    | none => some (String.mk block)
  | none =>
    let ms := braceSpanMatches cs
    match ms.reverse.find? (fun t => containsSub t ("\"items\"".data)) with
    | some t => some (String.mk t)
    | none =>
      match ms.getLast? with
      | some t => some (String.mk t)
      | none => none

/-- The `raw` JSON block selected by `parseHotelResults`: prefer the last
block starting with `{"hotels"`, otherwise the last brace-span match that
contains `"hotels"` — with no unconditional fallback, unlike the flight
variant. -/
def extractHotelsRaw (content : String) : Option String :=
  let cs := content.data
  match lastSubIdx cs ("\x7b\"hotels\"".data) with
  | some idx =>
    let block := jsTrimL (cs.drop idx)
    match lastCharIdx block '\x7d' with
    | some lb => some (String.mk (block.take (lb + 1)))
    | none => some (String.mk block)
  | none =>
    let ms := braceSpanMatches cs
    match ms.reverse.find? (fun t => containsSub t ("\"hotels\"".data)) with
    | some t => some (String.mk t)
    | none => none

/-- The `typeof x === "object"` for a defined value (arrays included; `null`
is excluded by the truthiness guards that always accompany this test in
the embedded code). -/
def isObjectType : Json → Bool
  | Json.obj _ => true
  | Json.arr _ => true
  | _ => false

/-- JavaScript `a || b` where the result must be a defined value. -/
def jsOrV (a : Option Json) (b : Json) : Json :=
  match a with
  | some v => if v.truthy then v else b
  | none => b

/-- The `parseFloat`: optional sign, digits with an optional fraction part;
`none` models `NaN`. -/
def parseFloatJS (s : String) : Option Rat :=
  let cs := dropLeadWs s.data
  let signed :=
    match cs with
    | '-' :: rest => ((-1 : Int), rest)
    | '+' :: rest => ((1 : Int), rest)
    | rest => ((1 : Int), rest)
  let ip := takeDigits signed.snd
  let fp :=
    match ip.snd with
    | '.' :: rest => takeDigits rest
    | rest => ([], rest)
  if ip.fst = [] ∧ fp.fst = [] then none
  else
    some ((signed.fst : Rat) *
      ((digitsToNat ip.fst : Rat) + (digitsToNat fp.fst : Rat) / pow10 (fp.fst.length : Int)))

/-- The `Object.values(c).some(Boolean)` for a card object. -/
def someTruthyField : Json → Bool
  | Json.obj fs => fs.any (fun f => f.snd.truthy)
  | _ => false

/-- The `stripSuffix` helper of `parseFlightResults`:
`s.replace(/\.(AIRPORT|CITY)$/i, "")` on strings, `s || ""` otherwise. -/
def stripSuffixJs (v : Option Json) : Json :=
  match v with
  | some (Json.str s) =>
    if s = "" then Json.str ""
    else
      let low := s.toLower
      if low.endsWith ".airport" then Json.str (s.dropRight 8)
      else if low.endsWith ".city" then Json.str (s.dropRight 5)
      else Json.str s
  | some x => if x.truthy then x else Json.str ""
  | none => Json.str ""

/-- The price string built by `toCard` from an object-shaped price value:
`amount = p.amount ?? p.total ?? p.units`, `nanos = p.nanos ?? 0`, and
when a numeric value is obtained,
`price = round(total)` optionally followed by a blank and the currency.
`parseFloat` of a non-numeric string (JavaScript `NaN`) is modelled as an
undefined price. -/
def objectPrice (objJ pv : Json) : Option Json :=
  let amount := jsNullish (pv.get? "amount") (jsNullish (pv.get? "total") (pv.get? "units"))
  let nanos := jsNullish (pv.get? "nanos") (some (Json.num 0))
  let val : Option Rat :=
    match amount with
    | some (Json.num v) => some v
    | some (Json.str s) => parseFloatJS s
    | _ => none
  match val with
  | some v =>
    let nanosAdd : Rat :=
      match nanos with
      | some (Json.num nv) => nv / 1000000000
      | _ => 0
    let total := v + nanosAdd
    let cur := jsOr (objJ.get? "currency") (jsOr (pv.get? "currency") (pv.get? "currencyCode"))
    let curS :=
      match cur with
      | some cv => if cv.truthy then " " ++ jsShow cv else ""
      | none => ""
    some (Json.str (toString (jsRound total) ++ curS))
  | none => none

/-- The `toCard` mapper of `parseFlightResults`: lowers one itinerary-like
value to the chat flight-card shape
`{from, to, departure, arrival, duration, price, airline}`. -/
def toCard (objJ : Json) : Json :=
  let vars :=
    if objJ.truthy && isObjectType objJ then
      let p := jsNullish (objJ.get? "price") (objJ.get? "pricing")
      let price : Option Json :=
        match p with
        | some (Json.num v) => some (Json.str ("$" ++ toString (jsRound v)))
        | some (Json.str s) => some (Json.str s)
        | some pv => if pv.truthy && isObjectType pv then objectPrice objJ pv else none
        | none => none
      let segs := jsOrV (jsOr (objJ.get? "segments")
        (jsOr (objJ.get? "legs") (objJ.get? "itinerarySegments"))) (Json.arr [])
      let seg :=
        match segs with
        | Json.arr (h :: t) =>
          let firstS := if h.truthy then h else Json.obj []
          let lastR := (h :: t).getLastD (Json.obj [])
          let lastS := if lastR.truthy then lastR else Json.obj []
          let airline := jsOr (firstS.get? "carrier") (jsOr (firstS.get? "airline")
            (jsOr (firstS.get? "marketingCarrier") (objJ.get? "airline")))
          let departure := jsOr (firstS.get? "departureTime") (jsOr (firstS.get? "departure")
            (jsOr (firstS.get? "departureDateTime") (objJ.get? "departTime")))
          let arrival := jsOr (lastS.get? "arrivalTime") (jsOr (lastS.get? "arrival")
            (jsOr (lastS.get? "arrivalDateTime") (objJ.get? "arriveTime")))
          let fromV := some (stripSuffixJs (jsOr (firstS.get? "origin")
            (jsOr (firstS.get? "departureAirport") (firstS.get? "originCode"))))
          let toV := some (stripSuffixJs (jsOr (lastS.get? "destination")
            (jsOr (lastS.get? "arrivalAirport") (lastS.get? "destinationCode"))))
          (airline, departure, arrival, fromV, toV)
        | _ => (none, none, none, none, none)
      let airline := jsOr seg.1 (objJ.get? "airline")
      let duration := jsOr (objJ.get? "duration") (objJ.get? "totalDuration")
      let departure := jsOr seg.2.1 (objJ.get? "departTime")
      let arrival := jsOr seg.2.2.1 (objJ.get? "arriveTime")
      let fromV := jsOr seg.2.2.2.1 (objJ.get? "from")
      let toV := jsOr seg.2.2.2.2 (objJ.get? "to")
      (airline, duration, departure, arrival, fromV, toV, price)
    else (none, none, none, none, none, none, none)
  let depOut := jsOrV vars.2.2.1 (jsOrV (some (stripSuffixJs vars.2.2.2.2.1)) (Json.str ""))
  let arrOut := jsOrV vars.2.2.2.1 (jsOrV (some (stripSuffixJs vars.2.2.2.2.2.1)) (Json.str ""))
  Json.obj
    [ ("from", jsOrV (some (stripSuffixJs vars.2.2.2.2.1)) (Json.str "")),
      ("to", jsOrV (some (stripSuffixJs vars.2.2.2.2.2.1)) (Json.str "")),
      ("departure", depOut),
      ("arrival", arrOut),
      ("duration", jsOrV vars.2.1 (Json.str "")),
      ("price", jsOrV vars.2.2.2.2.2.2 (Json.str "")),
      ("airline", jsOrV vars.1 (Json.str "")) ]

/-- Keep a value only when it is a non-empty array. -/
def arrNonempty : Json → Option (List Json)
  | Json.arr (x :: xs) => some (x :: xs)
  | _ => none

/-- The `candidateLists` accumulation of `parseFlightResults`:
`addListsFrom(data)` over five well-known keys, then `data` itself when it
is an array (even an empty one), then every non-empty array among
`Object.values(data)` (element values for an array `data`). -/
def candidateListsOf (data : Option Json) : List (List Json) :=
  let keyLists := (["results", "itineraries", "itineraryList", "flights", "items"].map
    (fun k => jsGet data k)).filterMap (fun v => v.bind arrNonempty)
  let arrSelf :=
    match data with
    | some (Json.arr l) => [l]
    | _ => []
  let objVals :=
    match data with
    | some (Json.obj fs) => (fs.map Prod.snd).filterMap arrNonempty
    | some (Json.arr l) => l.filterMap arrNonempty
    | _ => []
  keyLists ++ arrSelf ++ objVals

/-- One synthesized card of the `aggregation.airlines` fallback. -/
def airlineCard (al : Json) : Json :=
  let mp := jsOrV (jsGet (some al) "minPricePerAdult")
    (jsOrV (jsGet (some al) "minPrice") (Json.obj []))
  let amount := jsNullish (mp.get? "units") (mp.get? "amount")
  let currency := jsOrV (mp.get? "currencyCode") (jsOrV (mp.get? "currency") (Json.str ""))
  let price :=
    match amount with
    | some (Json.num v) =>
        Json.str (toString (jsRound v) ++ (if currency.truthy then " " ++ jsShow currency else ""))
    | _ => Json.str ""
  Json.obj
    [ ("from", Json.str ""), ("to", Json.str ""), ("departure", Json.str ""),
      ("arrival", Json.str ""), ("duration", Json.str ""), ("price", price),
      ("airline", jsOrV (jsGet (some al) "name") (jsOrV (jsGet (some al) "iataCode") (Json.str ""))) ]

/-- The JSON-payload part of `parseFlightResults` after a successful
`JSON.parse`: unwrap `results`/`data`, collect candidate lists, map the
first one through `toCard` with a 10-element cap, and otherwise try the
`aggregation.airlines` fallback (also capped at 10). `none` means the
code falls through to the legacy text parser. -/
def flightJsonCards (payload : Json) : Option (List Json) :=
  let root := (jsNullish (payload.get? "results") (some payload)).getD payload
  let data : Option Json := jsNullish (root.get? "data") (some root)
  let list := (candidateListsOf data).headD []
  let cards := ((list.take 10).map toCard).filter someTruthyField
  if cards.isEmpty then
    let rootObj : Option Json :=
      match jsGet data "data" with
      | some dd => if dd.truthy && isObjectType dd then some dd else data
      | none => data
    match jsGet (jsGet rootObj "aggregation") "airlines" with
    | some (Json.arr (a :: rest)) =>
      let cards2 := (((a :: rest).take 10).map airlineCard).filter someTruthyField
      if cards2.isEmpty then none else some cards2
    | _ => none
  else some cards

/-- One hotel card of the JSON path of `parseHotelResults`.  A missing
`imageUrl` (JavaScript `undefined`) is modelled as `null`. -/
def hotelJsonCard (h : Json) : Json :=
  let amount := jsGet (jsGet (some h) "price") "amount"
  let currency := jsOrV (jsGet (jsGet (some h) "price") "currency") (Json.str "")
  let price :=
    match amount with
    | some (Json.num v) =>
        Json.str (toString (jsRound v) ++ (if currency.truthy then " " ++ jsShow currency else ""))
    | _ => Json.str ""
  Json.obj
    [ ("name", jsOrV (h.get? "name") (Json.str "Hotel")),
      ("location", jsOrV (h.get? "location") (Json.str "")),
      ("rating", match h.get? "rating" with | some (Json.num v) => Json.num v | _ => Json.num 0),
      ("price", price),
      ("amenities", match h.get? "amenities" with | some (Json.arr l) => Json.arr l | _ => Json.arr []),
      ("imageUrl", (h.get? "imageUrl").getD Json.null) ]

/-- The JSON-payload part of `parseHotelResults`: a non-empty `hotels`
array is capped at 6 entries and mapped to hotel cards. -/
def hotelJsonCards (payload : Json) : Option (List Json) :=
  match payload.get? "hotels" with
  | some (Json.arr (h :: t)) => some (((h :: t).take 6).map hotelJsonCard)
  | _ => none

/-- Greedy whitespace run: the pair of the run and the rest. -/
def spanWs (cs : List Char) : List Char × List Char :=
  (cs.takeWhile jsIsWs, cs.dropWhile jsIsWs)

/-- The fragment `\s*([^-]+?)\s*-` of the legacy regexes, resolved
deterministically: the dash matched is the first dash of the input (the
lazy group cannot cross a dash); the capture runs from the end of the
leading whitespace run to the last non-whitespace character before that
dash, and degenerates to a single whitespace character when only
whitespace precedes the dash (the backtracking solution of the engine).
Returns the capture and the input after the dash. -/
def matchLazyNonDash (cs : List Char) : Option (List Char × List Char) :=
  match charIdx cs '-' with
  | none => none
  | some p =>
    if p = 0 then none
    else
      let pre := cs.take p
      let lead := (pre.takeWhile jsIsWs).length
      let cap :=
        if lead = p then pre.drop (p - 1)
        else
          let body := pre.drop lead
          let tailWs := (body.reverse.takeWhile jsIsWs).length
          body.take (body.length - tailWs)
      some (cap, cs.drop (p + 1))

/-- The fragment `(\d{1,2}:\d{2}\s*[AP]M)` of the legacy regexes: one or
two digits, a colon, two digits, optional whitespace, `A` or `P`, `M`.
Returns the text of the capture and the rest. -/
def matchClockTime (cs : List Char) : Option (List Char × List Char) :=
  let hh := takeDigits cs
  if hh.fst.length = 0 ∨ 2 < hh.fst.length then none
  else
    match hh.snd with
    | ':' :: r1 =>
      match r1 with
      | m1 :: m2 :: r2 =>
        if m1.isDigit ∧ m2.isDigit then
          let w := spanWs r2
          match w.snd with
          | a :: 'M' :: r3 =>
            if a = 'A' ∨ a = 'P' then
              some (hh.fst ++ ':' :: m1 :: m2 :: w.fst ++ [a, 'M'], r3)
            else none
          | _ => none
        else none
      | _ => none
    | _ => none

/-- The fragment `\s*\n\s*`: a whitespace run that contains at least one
newline, consumed entirely (what the greedy/backtracking engine leaves
behind, since the following pattern character is never whitespace). -/
def matchWsWithNl (cs : List Char) : Option (List Char) :=
  let w := spanWs cs
  if w.fst.contains '\n' then some w.snd else none

/-- Captured groups of one match of the legacy flight pattern
`(\d+)\.\s*([^-]+?)\s*-\s*\$(\d+)\s*\n\s*(\d{1,2}:\d{2}\s*[AP]M)\s*→\s*(\d{1,2}:\d{2}\s*[AP]M)\s*\(([^)]+)\)`. -/
structure FlightMatch where
  numTxt : String
  airlineRaw : String
  priceDigits : String
  depTxt : String
  arrTxt : String
  durTxt : String
deriving DecidableEq

/-- Attempt the legacy flight pattern at the head of the input; on success
return the captures and the input after the match. -/
def matchFlightAt (cs : List Char) : Option (FlightMatch × List Char) :=
  let d1 := takeDigits cs
  if d1.fst.isEmpty then none
  else
    match d1.snd with
    | '.' :: r1 =>
      match matchLazyNonDash r1 with
      | none => none
      | some cap2 =>
        let w1 := spanWs cap2.snd
        match w1.snd with
        | '$' :: r2 =>
          let d3 := takeDigits r2
          if d3.fst.isEmpty then none
          else
            match matchWsWithNl d3.snd with
            | none => none
            | some r3 =>
              match matchClockTime r3 with
              | none => none
              | some t1 =>
                let w2 := spanWs t1.snd
                match w2.snd with
                | '→' :: r4 =>
                  let w3 := spanWs r4
                  match matchClockTime w3.snd with
                  | none => none
                  | some t2 =>
                    let w4 := spanWs t2.snd
                    match w4.snd with
                    | '(' :: r5 =>
                      match charIdx r5 ')' with
                      | none => none
                      | some q =>
                        if q = 0 then none
                        else
                          some ({ numTxt := String.mk d1.fst,
                                  airlineRaw := String.mk cap2.fst,
                                  priceDigits := String.mk d3.fst,
                                  depTxt := String.mk t1.fst,
                                  arrTxt := String.mk t2.fst,
                                  durTxt := String.mk (r5.take q) },
                                r5.drop (q + 1))
                    | _ => none
                | _ => none
        | _ => none
    | _ => none

/-- Fuelled scan implementing `matchAll` for the legacy flight pattern:
try a match at every position, and continue after the end of each match. -/
def scanFlightsF : Nat → List Char → List FlightMatch
  | 0, _ => []
  | _ + 1, [] => []
  | fuel + 1, c :: rest =>
    match matchFlightAt (c :: rest) with
    | some m => m.fst :: scanFlightsF fuel m.snd
    | none => scanFlightsF fuel rest

/-- All matches of the legacy flight pattern (every match consumes at
least one character, so the length of the input is enough fuel). -/
def scanFlights (cs : List Char) : List FlightMatch := scanFlightsF cs.length cs

/-- The legacy text fallback of `parseFlightResults`: one card per match,
with empty `from`/`to` fields and no cap on the number of cards. -/
def legacyFlightCards (content : String) : Option (List Json) :=
  let ms := scanFlights content.data
  if ms.isEmpty then none
  else some (ms.map (fun m => Json.obj
    [ ("airline", Json.str (jsTrimStr m.airlineRaw)),
      ("price", Json.str ("$" ++ m.priceDigits)),
      ("departure", Json.str m.depTxt),
      ("arrival", Json.str m.arrTxt),
      ("duration", Json.str m.durTxt),
      ("from", Json.str ""),
      ("to", Json.str "") ]))

/-- The `parseFlightResults` of the hook: try the JSON block (falling through
to the legacy parser when no block is found, when `JSON.parse` throws, or
when no cards come out of the payload), otherwise the legacy text parser. -/
def parseFlightResults (content : String) : Option (List Json) :=
  match extractItemsRaw content with
  | some raw =>
    match jsonParse raw with
    | some payload =>
      match flightJsonCards payload with
      | some cards => some cards
      | none => legacyFlightCards content
    | none => legacyFlightCards content
  | none => legacyFlightCards content

/-- Captured groups of one match of the legacy hotel pattern
`(\d+)\.\s*([^-]+?)\s*-\s*\$(\d+)\/night\s*\n\s*Rating:\s*([\d.]+)⭐\s*\((\d+)\s*reviews\)`. -/
structure HotelMatch where
  numTxt : String
  nameRaw : String
  priceDigits : String
  ratingTxt : String
  reviewsDigits : String
deriving DecidableEq

/-- Attempt the legacy hotel pattern at the head of the input. -/
def matchHotelAt (cs : List Char) : Option (HotelMatch × List Char) :=
  let d1 := takeDigits cs
  if d1.fst.isEmpty then none
  else
    match d1.snd with
    | '.' :: r1 =>
      match matchLazyNonDash r1 with
      | none => none
      | some cap2 =>
        let w1 := spanWs cap2.snd
        match w1.snd with
        | '$' :: r2 =>
          let d3 := takeDigits r2
          if d3.fst.isEmpty then none
          else if subAt ("/night".data) d3.snd then
            match matchWsWithNl (d3.snd.drop 6) with
            | none => none
            | some r3 =>
              if subAt ("Rating:".data) r3 then
                let w2 := spanWs (r3.drop 7)
                let rd := w2.snd.takeWhile (fun c => c.isDigit ∨ c = '.')
                if rd.isEmpty then none
                else
                  match (w2.snd.drop rd.length) with
                  | '⭐' :: r4 =>
                    let w3 := spanWs r4
                    match w3.snd with
                    | '(' :: r5 =>
                      let d5 := takeDigits r5
                      if d5.fst.isEmpty then none
                      else
                        let w4 := spanWs d5.snd
                        if subAt ("reviews)".data) w4.snd then
                          some ({ numTxt := String.mk d1.fst,
                                  nameRaw := String.mk cap2.fst,
                                  priceDigits := String.mk d3.fst,
                                  ratingTxt := String.mk rd,
                                  reviewsDigits := String.mk d5.fst },
                                w4.snd.drop 8)
                        else none
                    | _ => none
                  | _ => none
              else none
          else none
        | _ => none
    | _ => none

/-- Fuelled `matchAll` scan for the legacy hotel pattern. -/
def scanHotelsF : Nat → List Char → List HotelMatch
  | 0, _ => []
  | _ + 1, [] => []
  | fuel + 1, c :: rest =>
    match matchHotelAt (c :: rest) with
    | some m => m.fst :: scanHotelsF fuel m.snd
    | none => scanHotelsF fuel rest

/-- All matches of the legacy hotel pattern. -/
def scanHotels (cs : List Char) : List HotelMatch := scanHotelsF cs.length cs

/-- The legacy text fallback of `parseHotelResults`.  `parseFloat` of the
rating capture yielding `NaN` is modelled as `null` (both are falsy and
never inspected further). -/
def legacyHotelCards (content : String) : Option (List Json) :=
  let ms := scanHotels content.data
  if ms.isEmpty then none
  else some (ms.map (fun m => Json.obj
    [ ("name", Json.str (jsTrimStr m.nameRaw)),
      ("price", Json.str ("$" ++ m.priceDigits)),
      ("rating", match parseFloatJS m.ratingTxt with
                 | some v => Json.num v
                 | none => Json.null),
      ("reviews_count", Json.num (digitsToNat m.reviewsDigits.data : Rat)),
      ("location", Json.str ""),
      ("amenities", Json.arr []) ]))

/-- The `parseHotelResults` of the hook. -/
def parseHotelResults (content : String) : Option (List Json) :=
  match extractHotelsRaw content with
  | some raw =>
    match jsonParse raw with
    | some payload =>
      match hotelJsonCards payload with
      | some cards => some cards
      | none => legacyHotelCards content
    | none => legacyHotelCards content
  | none => legacyHotelCards content

/-- The agent type union of the hook (`"coordinator" | "flight" | "hotel"
| "research"`). -/
inductive AgentType where
  | coordinator : AgentType
  | flight : AgentType
  | hotel : AgentType
  | research : AgentType
deriving DecidableEq

/-- The string literal of an agent type. -/
def AgentType.toStr : AgentType → String
  | AgentType.coordinator => "coordinator"
  | AgentType.flight => "flight"
  | AgentType.hotel => "hotel"
  | AgentType.research => "research"

/-- The per-worker status union of the hook's `AgentState`
(`"idle" | "active" | "complete"`). -/
inductive AgentStatus where
  | idle : AgentStatus
  | active : AgentStatus
  | complete : AgentStatus
deriving DecidableEq, Fintype

/-- The string literal of an agent status. -/
def AgentStatus.toStr : AgentStatus → String
  | AgentStatus.idle => "idle"
  | AgentStatus.active => "active"
  | AgentStatus.complete => "complete"

/-- The `AgentState` of the hook: per-worker type, status and optional short
message. -/
structure AgentState where
  type : AgentType
  status : AgentStatus
  message : Option String
deriving DecidableEq

/-- The `ChatMessage` of the hook.  `Date.now()` timestamps are naturals, and
the optional result arrays hold the card objects of the parsers. -/
structure ChatMessage where
  id : String
  text : String
  isUser : Bool
  timestamp : Nat
  agentType : Option AgentType
  flightResults : Option (List Json)
  hotelResults : Option (List Json)
  isPartial : Bool

/-- The initial / reset agents array of the hook. -/
def initialAgents : List AgentState :=
  [ { type := AgentType.coordinator, status := AgentStatus.idle, message := none },
    { type := AgentType.flight, status := AgentStatus.idle, message := none },
    { type := AgentType.hotel, status := AgentStatus.idle, message := none },
    { type := AgentType.research, status := AgentStatus.idle, message := none } ]

/-- The `updateAgentStatus`: map over the agents array, replacing status and
message on every entry of the given type and leaving the rest alone. -/
def updateAgentStatus (t : AgentType) (status : AgentStatus) (message : Option String)
    (agents : List AgentState) : List AgentState :=
  agents.map (fun agent =>
    if agent.type = t then { agent with status := status, message := message } else agent)

/-- The state handled by `useSSEChat`: the two `useState` cells
(`messages`, `isLoading`, `agents`) and the `useRef` cells.  The SSE
connection ref is reduced to the open/closed bit that the code reads, and
the `setTimeout(resetAgents, 2000)` of the `complete` branch is recorded
as a pending-reset flag. -/
structure HookState where
  messages : List ChatMessage
  isLoading : Bool
  agents : List AgentState
  eventSourceOpen : Bool
  currentQueryId : Option String
  currentThreadId : Option String
  currentMessageBuffer : String
  currentAgent : String
  agentsResetPending : Bool

/-- The hook state right after `useSSEChat` mounts. -/
def initHookState : HookState :=
  { messages := [], isLoading := false, agents := initialAgents,
    eventSourceOpen := false, currentQueryId := none, currentThreadId := none,
    currentMessageBuffer := "", currentAgent := "", agentsResetPending := false }

/-- A parsed server-sent event: the `type` discriminator plus the fields
the hook reads.  `reason` may be absent (`none` models `undefined`). -/
structure SSEEvent where
  type : String
  agent : String
  content : String
  reason : Option String
  message : String
  tool : String
  queryIdField : String

/-- The `agent.includes(...)` classification chain used by the
`agent_start`, `agent_message` and `agent_complete` branches. -/
def agentTypeOf (agent : String) : AgentType :=
  if strIncludes agent "coordinator" then AgentType.coordinator
  else if strIncludes agent "flight" then AgentType.flight
  else if strIncludes agent "hotel" then AgentType.hotel
  else AgentType.research

/-- An HTTP request issued by the hook, identified by endpoint and body. -/
inductive HookRequest where
  | stream (query : String) (threadId : String) : HookRequest
  | cancel (queryId : String) (reason : String) : HookRequest
deriving DecidableEq

/-- The `agent_message` branch of the event switch: extend the buffer,
parse the buffered content, and either replace the trailing message (same
non-user agent) or append a new one.  The source reads
`prev[prev.length - 1]` unconditionally; an empty message list cannot
occur because `sendMessage` appends the user message first, and is
modelled as a plain append. -/
def applyAgentMessage (now : Nat) (st : HookState) (ev : SSEEvent) : HookState :=
  let fullContent := st.currentMessageBuffer ++ ev.content
  let at_ := agentTypeOf ev.agent
  let newMessage : ChatMessage :=
    { id := ev.agent ++ "-" ++ toString now, text := fullContent, isUser := false,
      timestamp := now, agentType := some at_,
      flightResults := parseFlightResults fullContent,
      hotelResults := parseHotelResults fullContent, isPartial := false }
  let messages :=
    match st.messages.getLast? with
    | some lastMsg =>
      if lastMsg.isUser = false ∧ lastMsg.agentType = some at_ then
        st.messages.dropLast ++ [newMessage]
      else st.messages ++ [newMessage]
    | none => st.messages ++ [newMessage]
  { st with currentMessageBuffer := fullContent, messages := messages }

/-- The `agent_complete` branch: for flight/hotel agents re-parse the full
buffer and, when cards come out, rewrite the trailing non-user message;
then mark the agent complete with no status message. -/
def applyAgentComplete (st : HookState) (ev : SSEEvent) : HookState :=
  let completedAgent := agentTypeOf ev.agent
  let st1 :=
    if completedAgent = AgentType.flight ∨ completedAgent = AgentType.hotel then
      let finalContent := st.currentMessageBuffer
      let finalFlights := parseFlightResults finalContent
      let finalHotels := parseHotelResults finalContent
      let hasCards :=
        (match finalFlights with | some l => !l.isEmpty | none => false) ||
        (match finalHotels with | some l => !l.isEmpty | none => false)
      if hasCards then
        match st.messages.getLast? with
        | some last =>
          if last.isUser then st
          else
            let fr := match finalFlights with
                      | some l => some l
                      | none => last.flightResults
            let hr := match finalHotels with
                      | some l => some l
                      | none => last.hotelResults
            let updated := { last with text := finalContent, flightResults := fr, hotelResults := hr }
            { st with messages := st.messages.dropLast ++ [updated] }
        | none => st
      else st
    else st
  { st1 with agents := updateAgentStatus completedAgent AgentStatus.complete none st1.agents }

/-- One step of the `switch (event.type)` statement inside `sendMessage`'s
read loop; `now` is the `Date.now()` value visible to the branch.  Types
outside the recognized set hit no `case` and leave the state unchanged. -/
def processEvent (now : Nat) (st : HookState) (ev : SSEEvent) : HookState :=
  if ev.type = "start" then st
  else if ev.type = "agent_start" then
    let at_ := agentTypeOf ev.agent
    { st with
      agents := updateAgentStatus at_ AgentStatus.active (some (at_.toStr ++ " analyzing...")) st.agents,
      currentAgent := at_.toStr }
  else if ev.type = "agent_message" then applyAgentMessage now st ev
  else if ev.type = "agent_complete" then applyAgentComplete st ev
  else if ev.type = "tool_start" then st
  else if ev.type = "tool_complete" then st
  else if ev.type = "token" then
    { st with currentMessageBuffer := st.currentMessageBuffer ++ ev.content }
  else if ev.type = "complete" then
    { st with isLoading := false, agentsResetPending := true, currentQueryId := none }
  else if ev.type = "interrupted" then
    let reasonText :=
      match ev.reason with
      | some r => if r = "" then "Query interrupted" else r
      | none => "Query interrupted"
    { st with
      messages := st.messages ++
        [ { id := toString now, text := "⏸️ " ++ reasonText, isUser := false,
            timestamp := now, agentType := some AgentType.coordinator,
            flightResults := none, hotelResults := none, isPartial := true } ],
      isLoading := false, agents := initialAgents, currentQueryId := none }
  else if ev.type = "error" then
    { st with
      messages := st.messages ++
        [ { id := toString now, text := "❌ Error: " ++ ev.message, isUser := false,
            timestamp := now, agentType := some AgentType.coordinator,
            flightResults := none, hotelResults := none, isPartial := false } ],
      isLoading := false, agents := initialAgents }
  else st

/-- The `cancelCurrentQuery`: a no-op when no query id is recorded; otherwise
issue the cancel request, close the SSE connection, append the
interruption message, stop loading and reset the agents. -/
def cancelCurrentQuery (now : Nat) (st : HookState) : HookState × List HookRequest :=
  match st.currentQueryId with
  | none => (st, [])
  | some qid =>
    ({ st with
        eventSourceOpen := false,
        messages := st.messages ++
          [ { id := toString now,
              text := "⏸️ Query interrupted. Your partial results have been saved.",
              isUser := false, timestamp := now, agentType := some AgentType.coordinator,
              flightResults := none, hotelResults := none, isPartial := true } ],
        isLoading := false,
        agents := initialAgents },
      [HookRequest.cancel qid "User requested cancellation"])

/-- The response of the `/api/chat/stream` fetch as the hook observes it:
the ok flag, the `X-Query-ID` header, and the successfully parsed events
of the body (the SSE framing — `data: ` prefixes and `JSON.parse` of each
line — is elided; lines that fail it are skipped by the source and are
not represented). -/
structure StreamResponse where
  ok : Bool
  queryId : Option String
  events : List SSEEvent

/-- The `sendMessage`: reject blank queries and double submissions outright;
otherwise append the user message, start loading, fix the thread id,
issue the stream request and run the event loop (or the connection-error
handler when the response is not ok). -/
def sendMessage (now : Nat) (st : HookState) (query : String) (resp : StreamResponse) :
    HookState × List HookRequest :=
  if jsTrimStr query = "" ∨ st.isLoading then (st, [])
  else
    let userMessage : ChatMessage :=
      { id := toString now, text := query, isUser := true, timestamp := now,
        agentType := none, flightResults := none, hotelResults := none,
        isPartial := false }
    let st1 := { st with
      messages := st.messages ++ [userMessage],
      isLoading := true, currentMessageBuffer := "", currentAgent := "" }
    let threadId :=
      match st1.currentThreadId with
      | some t => t
      | none => "thread-" ++ toString now
    let st2 := { st1 with currentThreadId := some threadId }
    let req := HookRequest.stream query threadId
    if resp.ok then
      let st3 := { st2 with currentQueryId := resp.queryId }
      (resp.events.foldl (processEvent now) st3, [req])
    else
      let errMessage : ChatMessage :=
        { id := toString now,
          text := "❌ Connection error: HTTP error! Make sure Python backend is running.",
          isUser := false, timestamp := now, agentType := some AgentType.coordinator,
          flightResults := none, hotelResults := none, isPartial := false }
      ({ st2 with
          messages := st2.messages ++ [errMessage],
          isLoading := false, agents := initialAgents },
        [req])

/-- The `String.prototype.toLowerCase` (ASCII range, which covers the intent
keywords the route compares against). -/
def jsToLower (s : String) : String := String.mk (s.data.map Char.toLower)

/-- The `needsFlight` of the simulated multi-agent route: the lower-cased
message contains `"flight"` or `"fly"`. -/
def needsFlight (query : String) : Bool :=
  strIncludes query "flight" || strIncludes query "fly"

/-- The `needsHotel` of the simulated multi-agent route: the lower-cased
message contains `"hotel"` or `"stay"`. -/
def needsHotel (query : String) : Bool :=
  strIncludes query "hotel" || strIncludes query "stay"

/-- One agent entry of the route response. -/
structure RouteAgent where
  type : String
  status : String
  results : List Json

/-- The canned flight agent entry pushed by the route. -/
def flightAgentEntry : RouteAgent :=
  { type := "flight", status := "searching",
    results :=
      [ Json.obj
          [ ("from", Json.str "NYC"), ("to", Json.str "LAX"),
            ("departure", Json.str "08:00 AM"), ("arrival", Json.str "11:30 AM"),
            ("duration", Json.str "5h 30m"), ("price", Json.str "$299"),
            ("airline", Json.str "Delta Airlines") ],
        Json.obj
          [ ("from", Json.str "NYC"), ("to", Json.str "LAX"),
            ("departure", Json.str "02:15 PM"), ("arrival", Json.str "05:45 PM"),
            ("duration", Json.str "5h 30m"), ("price", Json.str "$349"),
            ("airline", Json.str "United Airlines") ] ] }

/-- The canned hotel agent entry pushed by the route. -/
def hotelAgentEntry : RouteAgent :=
  { type := "hotel", status := "searching",
    results :=
      [ Json.obj
          [ ("name", Json.str "The Grand Plaza"),
            ("location", Json.str "Downtown Los Angeles"),
            ("rating", Json.num (9 / 2)), ("price", Json.str "$189"),
            ("amenities", Json.arr [Json.str "Pool", Json.str "Gym",
              Json.str "Free WiFi", Json.str "Breakfast"]),
            ("imageUrl", Json.str "https://images.unsplash.com/photo-1566073771259-6a8506099945?w=800&q=80") ],
        Json.obj
          [ ("name", Json.str "Coastal View Hotel"),
            ("location", Json.str "Santa Monica"),
            ("rating", Json.num (47 / 10)), ("price", Json.str "$249"),
            ("amenities", Json.arr [Json.str "Beach Access", Json.str "Spa",
              Json.str "Restaurant", Json.str "Parking"]),
            ("imageUrl", Json.str "https://images.unsplash.com/photo-1542314831-068cd1dbfeeb?w=800&q=80") ] ] }

/-- The response body of the simulated route. -/
structure RouteResponse where
  coordinatorResponse : String
  agents : List RouteAgent

/-- The `POST` handler of the simulated multi-agent route: lower-case the
message, detect the two intents, and push the flight entry and then the
hotel entry when the corresponding intent is present. -/
def routePOST (message : String) : RouteResponse :=
  let query := jsToLower message
  { coordinatorResponse := "I'll help you with your travel plans!",
    agents :=
      (if needsFlight query then [flightAgentEntry] else []) ++
      (if needsHotel query then [hotelAgentEntry] else []) }

/-- Modelled from the spec: the Worker run loop of the Python backend is
not part of the source tree (only its setup scripts are), so the
cooperative-cancellation contract of §4.3/§5 is modelled here.  A
`CancellationSignal` is a boolean-like state that, once requested at some
check-point index, stays requested forever (monotonicity of §3). -/
structure CancellationSignal where
  requestedAt : Option Nat

/-- Reading the signal at check point `t`: requested exactly when the
request happened at an earlier or equal check point. -/
def CancellationSignal.read (sig : CancellationSignal) (t : Nat) : Bool :=
  match sig.requestedAt with
  | some k => decide (k ≤ t)
  | none => false

/-- Modelled from the spec: the events a Worker step streams before the
next check point (`agent_message`/`token` payloads, tool markers). -/
inductive WorkerEvent where
  | agentMessage (content : String) : WorkerEvent
  | token (content : String) : WorkerEvent
  | toolStart (tool : String) : WorkerEvent
  | toolComplete (tool : String) : WorkerEvent
deriving DecidableEq

/-- Modelled from the spec: one externally-visible Worker step between two
check points, with the events it emits. -/
structure WorkerStep where
  events : List WorkerEvent
deriving DecidableEq

/-- One item of the stream a Query delivers: a relayed Worker event or the
terminal marker. -/
inductive StreamItem where
  | event (e : WorkerEvent) : StreamItem
  | interrupted : StreamItem
  | complete : StreamItem
deriving DecidableEq

/-- Modelled from the spec: the Worker run loop (§4.3) starting at check
point `t`.  Before every step the Worker checks the cancellation signal;
if it is requested the Worker returns `Interrupted` at once — emitting the
terminal marker and nothing else — otherwise it emits the step's events
and continues; after the last step it completes. -/
def workerRunFrom (sig : CancellationSignal) (t : Nat) : List WorkerStep → List StreamItem
  | [] => [StreamItem.complete]
  | s :: rest =>
    if sig.read t then [StreamItem.interrupted]
    else s.events.map StreamItem.event ++ workerRunFrom sig (t + 1) rest

/-- Modelled from the spec: a full Worker run checks the signal at entry
(check point 0) and then cooperatively at every later check point. -/
def workerRun (sig : CancellationSignal) (steps : List WorkerStep) : List StreamItem :=
  workerRunFrom sig 0 steps

/-- The recognized `type` values of the streamed event schema. -/
def recognizedEventTypes : List String :=
  ["start", "agent_start", "agent_message", "agent_complete",
   "tool_start", "tool_complete", "token", "complete", "interrupted", "error"]

/-- A `complete` event with no payload, as the backend emits it. -/
def evComplete : SSEEvent :=
  { type := "complete", agent := "", content := "", reason := none,
    message := "", tool := "", queryIdField := "" }

/-- An `interrupted` event carrying a reason. -/
def evInterrupted : SSEEvent :=
  { type := "interrupted", agent := "", content := "",
    reason := some "User requested cancellation", message := "", tool := "",
    queryIdField := "" }

/-- An `agent_start` event for the flight worker. -/
def evAgentStart : SSEEvent :=
  { type := "agent_start", agent := "flight_agent", content := "", reason := none,
    message := "", tool := "", queryIdField := "" }

/-- An `agent_complete` event for the flight worker. -/
def evAgentDone : SSEEvent :=
  { type := "agent_complete", agent := "flight_agent", content := "", reason := none,
    message := "", tool := "", queryIdField := "" }

/-- An event of a `type` outside the recognized set. -/
def evUnknown : SSEEvent :=
  { type := "agent_heartbeat", agent := "flight_agent", content := "ping", reason := none,
    message := "", tool := "", queryIdField := "" }

/-- A hook state with a query in flight. -/
def exActiveState : HookState :=
  { initHookState with isLoading := true, currentQueryId := some "q-1" }

/-- A trivially empty stream response. -/
def emptyResp : StreamResponse := { ok := true, queryId := none, events := [] }

/-- Eleven flights rendered in the legacy text format. -/
def legacyEleven : String :=
  "1. Delta - $300\n10:00 AM → 1:00 PM (6h)\n" ++
  "2. Delta - $300\n10:00 AM → 1:00 PM (6h)\n" ++
  "3. Delta - $300\n10:00 AM → 1:00 PM (6h)\n" ++
  "4. Delta - $300\n10:00 AM → 1:00 PM (6h)\n" ++
  "5. Delta - $300\n10:00 AM → 1:00 PM (6h)\n" ++
  "6. Delta - $300\n10:00 AM → 1:00 PM (6h)\n" ++
  "7. Delta - $300\n10:00 AM → 1:00 PM (6h)\n" ++
  "8. Delta - $300\n10:00 AM → 1:00 PM (6h)\n" ++
  "9. Delta - $300\n10:00 AM → 1:00 PM (6h)\n" ++
  "10. Delta - $300\n10:00 AM → 1:00 PM (6h)\n" ++
  "11. Delta - $300\n10:00 AM → 1:00 PM (6h)\n"

/-- A single flight in the legacy text format. -/
def legacySingle : String := "1. Delta - $300\n10:00 AM → 1:00 PM (6h)"

/-- The coordinator entry of the initial agents array. -/
def coordIdle : AgentState :=
  { type := AgentType.coordinator, status := AgentStatus.idle, message := none }

/-- Every Worker run is a block of relayed events followed by exactly one
terminal marker. -/
theorem workerRunFrom_shape (sig : CancellationSignal) (t : Nat) (steps : List WorkerStep) :
    ∃ es : List WorkerEvent,
      workerRunFrom sig t steps = es.map StreamItem.event ++ [StreamItem.interrupted] ∨
      workerRunFrom sig t steps = es.map StreamItem.event ++ [StreamItem.complete] := by
  induction steps generalizing t with
  | nil => exact ⟨[], Or.inr rfl⟩
  | cons s rest ih =>
    by_cases hc : sig.read t
    · exact ⟨[], Or.inl (by simp [workerRunFrom, hc])⟩
    · obtain ⟨es, hes | hes⟩ := ih (t + 1)
      · exact ⟨s.events ++ es, Or.inl (by simp [workerRunFrom, hc, hes])⟩
      · exact ⟨s.events ++ es, Or.inr (by simp [workerRunFrom, hc, hes])⟩

/-- In an event block followed by one marker, an `interrupted` item can
only sit in the marker slot, hence nothing follows it. -/
theorem marker_slot_last (es : List WorkerEvent) :
    ∀ (xs ys : List StreamItem) (last : StreamItem),
      es.map StreamItem.event ++ [last] = xs ++ StreamItem.interrupted :: ys → ys = [] := by
  induction es with
  | nil =>
    intro xs ys last h
    rcases xs with _ | ⟨x, xs⟩
    · simp only [List.map_nil, List.nil_append, List.cons.injEq] at h
      exact h.2.symm
    · simp at h
  | cons e es ih =>
    intro xs ys last h
    rcases xs with _ | ⟨x, xs⟩
    · simp at h
    · simp at h
      exact ih xs ys last h.2

/-- Claim C1 (spec-modelled Worker): once the Worker's interruption is
observed and acted on — the Worker returns `Interrupted` — no further
`agent_message`/`token` event for that Worker appears on the Query's
stream: the `interrupted` marker is the last item delivered. -/
theorem worker_interrupted_is_last (sig : CancellationSignal)
    (steps : List WorkerStep) (xs ys : List StreamItem)
    (h : workerRun sig steps = xs ++ StreamItem.interrupted :: ys) :
    ys = [] := by
  obtain ⟨es, hes | hes⟩ := workerRunFrom_shape sig 0 steps
  · refine marker_slot_last es xs ys StreamItem.interrupted ?_
    rw [← hes]
    exact h
  · refine marker_slot_last es xs ys StreamItem.complete ?_
    rw [← hes]
    exact h

/-- Witness for C1: a cancellation requested before the first check point
makes the run a single `interrupted` item, with an empty tail. -/
theorem worker_interrupted_is_last_witness :
    workerRun { requestedAt := some 0 } [{ events := [WorkerEvent.token "chunk"] }] =
      [] ++ StreamItem.interrupted :: ([] : List StreamItem) ∧
    ([] : List StreamItem) = [] :=
  ⟨rfl, worker_interrupted_is_last { requestedAt := some 0 }
    [{ events := [WorkerEvent.token "chunk"] }] [] [] (by rfl)⟩

/-- Claim C2 (amended): a submission made while a Query is active
(`isLoading` true) is dropped outright — the state is unchanged and no
request, in particular no cancellation request, is issued. -/
theorem sendMessage_active_drops (now : Nat) (st : HookState) (query : String)
    (resp : StreamResponse) (h : st.isLoading = true) :
    sendMessage now st query resp = (st, []) := by
  simp [sendMessage, h]

/-- Witness for the amended C2. -/
theorem sendMessage_active_drops_witness :
    sendMessage 5 exActiveState "find hotels in Paris" emptyResp = (exActiveState, []) :=
  sendMessage_active_drops 5 exActiveState "find hotels in Paris" emptyResp rfl

/-- Counterexample to C2 as stated: with a Query active
(`isLoading = true`, a current query id recorded), submitting a new query
issues no cancellation request at all — the request list is empty and the
state is untouched, so the submission path merely drops the message. -/
theorem sendMessage_active_counterexample :
    exActiveState.isLoading = true ∧
    (sendMessage 5 exActiveState "find hotels in Paris" emptyResp).snd = [] ∧
    (sendMessage 5 exActiveState "find hotels in Paris" emptyResp).fst.messages =
      exActiveState.messages := by
  refine ⟨rfl, ?_, ?_⟩ <;> simp [sendMessage, exActiveState, initHookState]

/-- Claim C3: after a `complete` or `interrupted` event is processed the
current query id is cleared, so a subsequent cancel is an idempotent
no-op: same state, no appended message, no cancellation request. -/
theorem cancel_after_terminal_noop (now now2 : Nat) (st : HookState) (ev : SSEEvent)
    (h : ev.type = "complete" ∨ ev.type = "interrupted") :
    cancelCurrentQuery now2 (processEvent now st ev) = (processEvent now st ev, []) := by
  have hq : (processEvent now st ev).currentQueryId = none := by
    rcases h with h | h <;> simp [processEvent, h]
  simp [cancelCurrentQuery, hq]

/-- Witness for C3. -/
theorem cancel_after_terminal_noop_witness :
    cancelCurrentQuery 2 (processEvent 1 exActiveState evComplete) =
      (processEvent 1 exActiveState evComplete, []) :=
  cancel_after_terminal_noop 1 2 exActiveState evComplete (Or.inl rfl)

/-- Claim C4: a blank (empty or all-whitespace) query is rejected before
anything happens: the state is unchanged and no request is issued. -/
theorem sendMessage_blank_rejected (now : Nat) (st : HookState) (query : String)
    (resp : StreamResponse) (h : jsTrimStr query = "") :
    sendMessage now st query resp = (st, []) := by
  simp [sendMessage, h]

/-- Witness for C4: three spaces trim to the empty string. -/
theorem sendMessage_blank_rejected_witness :
    sendMessage 7 initHookState "   " emptyResp = (initHookState, []) :=
  sendMessage_blank_rejected 7 initHookState "   " emptyResp (by rfl)

/-- Claim C5: an event whose `type` is outside the recognized set matches
no `case` of the switch and leaves the whole hook state unchanged. -/
theorem unknown_event_ignored (now : Nat) (st : HookState) (ev : SSEEvent)
    (h : ev.type ∉ recognizedEventTypes) :
    processEvent now st ev = st := by
  simp [recognizedEventTypes, List.mem_cons, not_or] at h
  obtain ⟨h1, h2, h3, h4, h5, h6, h7, h8, h9, h10⟩ := h
  simp [processEvent, h1, h2, h3, h4, h5, h6, h7, h8, h9, h10]

/-- Witness for C5: a hypothetical `agent_heartbeat` event is ignored. -/
theorem unknown_event_ignored_witness :
    processEvent 3 exActiveState evUnknown = exActiveState :=
  unknown_event_ignored 3 exActiveState evUnknown (by decide)

/-- Claim C6: when both the flight and the hotel intent are detected, the
route's agents list is exactly the flight entry followed by the hotel
entry — flight strictly precedes hotel. -/
theorem both_intents_flight_before_hotel (message : String)
    (hf : needsFlight (jsToLower message) = true)
    (hh : needsHotel (jsToLower message) = true) :
    (routePOST message).agents = [flightAgentEntry, hotelAgentEntry] := by
  simp [routePOST, hf, hh]

/-- Witness for C6. -/
theorem both_intents_flight_before_hotel_witness :
    (routePOST "Book a flight to LA and a hotel there").agents =
      [flightAgentEntry, hotelAgentEntry] :=
  both_intents_flight_before_hotel "Book a flight to LA and a hotel there"
    (by decide) (by decide)

/-- Claim C7 (amended): when neither intent is detected the route returns
an empty agents list — no research entry is added. -/
theorem unclassified_empty_agents (message : String)
    (hf : needsFlight (jsToLower message) = false)
    (hh : needsHotel (jsToLower message) = false) :
    (routePOST message).agents = [] := by
  simp [routePOST, hf, hh]

/-- Witness for the amended C7. -/
theorem unclassified_empty_agents_witness :
    (routePOST "What is the weather in Paris?").agents = [] :=
  unclassified_empty_agents "What is the weather in Paris?" (by decide) (by decide)

/-- Counterexample to C7 as stated: for a message with neither intent the
agents list is empty, so in particular it contains no research entry. -/
theorem unclassified_no_research_counterexample :
    needsFlight (jsToLower "What is the weather in Paris?") = false ∧
    needsHotel (jsToLower "What is the weather in Paris?") = false ∧
    (routePOST "What is the weather in Paris?").agents = [] := by
  refine ⟨by decide, by decide, ?_⟩
  have hf : needsFlight (jsToLower "What is the weather in Paris?") = false := by decide
  have hh : needsHotel (jsToLower "What is the weather in Paris?") = false := by decide
  simp [routePOST, hf, hh]

/-- Counterexample to C8 as stated: the hook's `AgentState` status union
has no `interrupted` member (and, by the same enumeration, no `errored`
one) — the projection admits three statuses, not five. -/
theorem agent_status_no_interrupted_counterexample :
    ¬ ∃ s : AgentStatus, AgentStatus.toStr s = "interrupted" := by
  decide

/-- Claim C8 (amended): the UI-facing `AgentState` projection admits
exactly the three statuses `idle`, `active` and `complete`, and each of
the three is reachable: all agents start `idle`, an `agent_start` event
makes the flight agent `active`, and a following `agent_complete` makes
it `complete`. -/
theorem agent_status_three_reachable :
    (∀ s : AgentStatus,
      s = AgentStatus.idle ∨ s = AgentStatus.active ∨ s = AgentStatus.complete) ∧
    (∃ a ∈ initHookState.agents, a.status = AgentStatus.idle) ∧
    (∃ a ∈ (processEvent 0 initHookState evAgentStart).agents,
      a.status = AgentStatus.active) ∧
    (∃ a ∈ (processEvent 1 (processEvent 0 initHookState evAgentStart) evAgentDone).agents,
      a.status = AgentStatus.complete) := by
  refine ⟨fun s => by cases s <;> simp, ?_, ?_, ?_⟩ <;> decide

/-- Claim C9: `updateAgentStatus` preserves the length of the agents
array, leaves every entry of a different type untouched, and replaces
status and message on entries of the given type. -/
theorem updateAgentStatus_frame (agents : List AgentState) (t : AgentType)
    (s : AgentStatus) (m : Option String) :
    (updateAgentStatus t s m agents).length = agents.length ∧
    ∀ i a b, agents.get? i = some a →
      (updateAgentStatus t s m agents).get? i = some b →
      b = if a.type = t then { a with status := s, message := m } else a := by
  constructor
  · simp [updateAgentStatus]
  · intro i a b ha hb
    rw [List.get?_eq_getElem?] at ha hb
    simp [updateAgentStatus, List.getElem?_map, ha] at hb
    exact hb.symm

/-- Witness for C9: the coordinator entry is untouched by a flight
update. -/
theorem updateAgentStatus_frame_witness :
    coordIdle =
      if coordIdle.type = AgentType.flight then
        { coordIdle with status := AgentStatus.active, message := some "m" }
      else coordIdle :=
  (updateAgentStatus_frame initialAgents AgentType.flight AgentStatus.active
    (some "m")).2 0 coordIdle coordIdle (by rfl) (by rfl)

/-- A list produced by the legacy flight fallback has exactly one card
per pattern match. -/
theorem legacyFlightCards_length (content : String) (l : List Json)
    (h : legacyFlightCards content = some l) :
    l.length = (scanFlights content.data).length := by
  simp only [legacyFlightCards] at h
  split at h
  · exact absurd h (by simp)
  · injection h with h
    rw [← h, List.length_map]

/-- Both JSON branches of `parseFlightResults` cap the card list at 10. -/
theorem flightJsonCards_le_ten (p : Json) (cards : List Json)
    (h : flightJsonCards p = some cards) :
    cards.length ≤ 10 := by
  simp only [flightJsonCards] at h
  split at h
  · split at h
    · split at h
      · exact absurd h (by simp)
      · injection h with h
        rw [← h]
        refine le_trans (List.length_filter_le _ _) ?_
        rw [List.length_map]
        exact le_trans (List.length_take_le _ _) (le_refl 10)
    · exact absurd h (by simp)
  · injection h with h
    rw [← h]
    refine le_trans (List.length_filter_le _ _) ?_
    rw [List.length_map]
    exact le_trans (List.length_take_le _ _) (le_refl 10)

/-- Claim C10 (amended): `parseFlightResults` always returns either no
result or a list of flight cards whose length is at most the larger of 10
and the number of legacy-pattern matches: the JSON paths cap the list at
10 entries, but the legacy text fallback emits one card per match without
any cap. -/
theorem parseFlightResults_bound (content : String) (l : List Json)
    (h : parseFlightResults content = some l) :
    l.length ≤ max 10 (scanFlights content.data).length := by
  simp only [parseFlightResults] at h
  split at h
  · split at h
    · split at h
      · injection h with h
        rw [← h] at *
        exact le_max_of_le_left (flightJsonCards_le_ten _ _ (by assumption))
      · exact le_max_of_le_right (le_of_eq (legacyFlightCards_length content l h))
    · exact le_max_of_le_right (le_of_eq (legacyFlightCards_length content l h))
  · exact le_max_of_le_right (le_of_eq (legacyFlightCards_length content l h))

/-- Witness for the amended C10 at a single legacy-format flight. -/
theorem parseFlightResults_bound_witness :
    ((parseFlightResults legacySingle).getD []).length ≤
      max 10 (scanFlights legacySingle.data).length :=
  parseFlightResults_bound legacySingle ((parseFlightResults legacySingle).getD [])
    (by rfl)

set_option maxRecDepth 20000 in
/-- Counterexample to C10 as stated: on eleven legacy-format flights the
legacy fallback returns eleven cards — more than the claimed cap of 10. -/
theorem parseFlightResults_eleven_counterexample :
    (parseFlightResults legacyEleven).map List.length = some 11 := by
  rfl
